import Mathlib

/-!
Verification development for the `remote_timelapse` repository.

The definitions below are a shallow embedding of the Python source:

* `SlackNotifier` (src/local_tp.py) becomes `NotifierState` together with the
  `send_*` functions; each underlying Slack client call is modelled by a
  `ClientOutcome` supplied through a `Sink` (the call either raises, as
  `SlackApiError`/`Exception` do, or returns a response with an `ok` flag),
  and every function additionally returns the list of client calls it made
  (its observable I/O trace).
* `PiCameraController` (src/local_tp.py) becomes `ControllerState` with
  `capture_image`, `check_system_health`, `timelapse_iteration`,
  `run_timelapse` and `cleanup_old_images`; the camera and the sensor reads
  are oracles (`CaptureEnv`, `HealthEnv`) describing whether the underlying
  device calls succeed or raise.
* `TimelapseBot` (src/timelapse_bot.py) becomes `BotState` with
  `parse_command` (a faithful implementation of the regex grammar in
  `command_patterns`, including `re.search` scanning) and `execute_command`.
-/

namespace RemoteTimelapse

/-- Outcome of one underlying Slack client call: the call either raised an
exception (`SlackApiError` or any other `Exception`) or returned a response
carrying an `ok` flag. -/
inductive ClientOutcome
  | raised
  | response (ok : Bool)
deriving DecidableEq

/-- The chat transport, as seen by one notifier call: the outcome the next
`chat_postMessage` call would produce (together with the `ts` field of a
successful response) and the outcome the next `files_upload_v2` call would
produce. -/
structure Sink where
  postMessage : ClientOutcome
  msgTs : Int
  filesUpload : ClientOutcome
deriving DecidableEq

/-- Kind of a posted chat message, tagging which notifier path produced it.
`sessionStop` carries the average-interval figure embedded in its text. -/
inductive MsgKind
  | errorMsg
  | warningMsg
  | sessionStart
  | sessionStop (avgInterval : ℚ)
  | progress
  | photoFallback
  | temperatureAlert
  | diskAlert
deriving DecidableEq

/-- One observable call made to the Slack client: a `chat_postMessage`
(`byteSize` is the byte-size figure interpolated into the text, when the
text carries one) or a `files_upload_v2` of an image payload. -/
inductive SinkCall
  | chatPost (kind : MsgKind) (byteSize : Option Nat) (inThread : Bool)
  | fileUpload (byteSize : Nat) (inThread : Bool)
deriving DecidableEq

/-- State of `SlackNotifier`: the configuration flags read via
`notifications.get(..., default)`, the conversation-thread timestamp and the
rate-limiting timestamps set up in `SlackNotifier.__init__`. -/
structure NotifierState where
  enabled : Bool
  errors : Bool
  warnings : Bool
  start_stop : Bool
  progress_updates : Bool
  send_photos : Bool
  temperature_alerts : Bool
  disk_space_alerts : Bool
  progress_interval : Nat
  photo_interval : Nat
  thread_ts : Option Int
  last_progress_notification : Int
  last_photo_notification : Int
  last_health_warning : Int
  health_warning_cooldown : Int
deriving DecidableEq

/-- The notifier state after `SlackNotifier.__init__` with notifications
enabled and every category flag at its `.get(..., True)` default:
`thread_ts = None`, all rate-limit timestamps `0`, cooldown 300 s,
`progress_interval` default 10, `photo_interval` default 5. -/
def notifierInit : NotifierState where
  enabled := true
  errors := true
  warnings := true
  start_stop := true
  progress_updates := true
  send_photos := true
  temperature_alerts := true
  disk_space_alerts := true
  progress_interval := 10
  photo_interval := 5
  thread_ts := none
  last_progress_notification := 0
  last_photo_notification := 0
  last_health_warning := 0
  health_warning_cooldown := 300

/-- `SlackNotifier._send_message` restricted to the text-only branch (no
image payload): returns `False` when disabled, otherwise posts and returns
the response's `ok` flag; a raised `SlackApiError`/`Exception` is caught and
yields `False`. The `thread_ts` keyword is attached only when `in_thread`
holds and a thread timestamp exists. -/
def send_message_text (s : NotifierState) (sink : Sink) (kind : MsgKind)
    (byteSize : Option Nat) (inThread : Bool) : Bool × List SinkCall :=
  if ¬ s.enabled then (false, [])
  else
    let call := SinkCall.chatPost kind byteSize (inThread && s.thread_ts.isSome)
    match sink.postMessage with
    | .raised => (false, [call])
    | .response ok => (ok, [call])

/-- `SlackNotifier._upload_image_fallback`: sends a plain text message whose
body interpolates the filename and `len(image_data)` (the byte size of the
image payload); the surrounding try/except turns any raise into `False`, and
`send_message_text` already maps raised client calls to `False`. -/
def upload_image_fallback (s : NotifierState) (sink : Sink) (byteSize : Nat)
    (inThread : Bool) : Bool × List SinkCall :=
  send_message_text s sink .photoFallback (some byteSize) inThread

/-- `SlackNotifier._upload_image`: calls `files_upload_v2`; on an `ok`
response it returns `True`, and on a non-`ok` response or any raised
exception it falls back to `upload_image_fallback`. -/
def upload_image (s : NotifierState) (sink : Sink) (byteSize : Nat)
    (inThread : Bool) : Bool × List SinkCall :=
  let call := SinkCall.fileUpload byteSize (inThread && s.thread_ts.isSome)
  match sink.filesUpload with
  | .response true => (true, [call])
  | .response false =>
      let r := upload_image_fallback s sink byteSize inThread
      (r.1, call :: r.2)
  | .raised =>
      let r := upload_image_fallback s sink byteSize inThread
      (r.1, call :: r.2)

/-- `SlackNotifier._send_message`: returns `False` when disabled; with an
image payload it delegates to `_upload_image`, otherwise it posts text. -/
def send_message (s : NotifierState) (sink : Sink) (kind : MsgKind)
    (image : Option Nat) (inThread : Bool) : Bool × List SinkCall :=
  if ¬ s.enabled then (false, [])
  else
    match image with
    | some byteSize => upload_image s sink byteSize inThread
    | none => send_message_text s sink kind none inThread

/-- `SlackNotifier.send_error`: gated on the `errors` category flag, posts to
the top-level channel (never in a thread), mutates no notifier state. -/
def send_error (s : NotifierState) (sink : Sink) : Bool × List SinkCall :=
  if ¬ s.errors then (false, [])
  else send_message s sink .errorMsg none false

/-- `SlackNotifier.send_warning`: gated on the `warnings` category flag,
posts to the top-level channel, mutates no notifier state. -/
def send_warning (s : NotifierState) (sink : Sink) : Bool × List SinkCall :=
  if ¬ s.warnings then (false, [])
  else send_message s sink .warningMsg none false

/-- `SlackNotifier.send_start_notification`: gated on `start_stop`; posts
directly via `chat_postMessage` and, on an `ok` response, records the
response's `ts` as the conversation-thread handle. -/
def send_start_notification (s : NotifierState) (sink : Sink) :
    NotifierState × Bool × List SinkCall :=
  if ¬ s.start_stop then (s, false, [])
  else
    let call := SinkCall.chatPost .sessionStart none false
    match sink.postMessage with
    | .response true => ({ s with thread_ts := some sink.msgTs }, true, [call])
    | .response false => (s, false, [call])
    | .raised => (s, false, [call])

/-- Divisor of the average-interval figure in
`SlackNotifier.send_stop_notification`: the source computes
`duration / max(image_count, 1)`. -/
def stop_notification_divisor (image_count : Nat) : Nat :=
  max image_count 1

/-- Average-interval figure interpolated into the stop-notification text:
`duration / max(image_count, 1)`. -/
def stop_notification_average_interval (image_count : Nat) (duration : ℚ) : ℚ :=
  duration / (stop_notification_divisor image_count : ℚ)

/-- `SlackNotifier.send_stop_notification`: gated on `start_stop`; posts (in
the conversation thread) a text carrying the image count, the elapsed
duration and the average-interval figure. -/
def send_stop_notification (s : NotifierState) (sink : Sink)
    (image_count : Nat) (duration : ℚ) : Bool × List SinkCall :=
  if ¬ s.start_stop then (false, [])
  else
    send_message s sink (.sessionStop (stop_notification_average_interval image_count duration))
      none true

/-- `SlackNotifier.send_progress_update`: gated on `progress_updates` and on
the frequency gate `image_count % progress_interval == 0`; mutates no
notifier state (the `last_progress_notification` field is never written by
the source). A zero `progress_interval` would raise in Python; the
configuration default is 10 and theorems quantify over positive intervals. -/
def send_progress_update (s : NotifierState) (sink : Sink)
    (image_count : Nat) : Bool × List SinkCall :=
  if ¬ s.progress_updates then (false, [])
  else if image_count % s.progress_interval ≠ 0 then (false, [])
  else send_message s sink .progress none true

/-- `SlackNotifier.send_photo_notification`: gated on `send_photos`, on the
frequency gate `image_count % photo_interval == 0`, and on the 120-second
cooldown measured from `last_photo_notification`; when all gates pass it
first records `last_photo_notification = now` and then attempts delivery
through the image-upload path of `_send_message`. -/
def send_photo_notification (s : NotifierState) (sink : Sink) (now : Int)
    (image_count : Nat) (byteSize : Nat) : NotifierState × Bool × List SinkCall :=
  if ¬ s.send_photos then (s, false, [])
  else if image_count % s.photo_interval ≠ 0 then (s, false, [])
  else if now - s.last_photo_notification < 120 then (s, false, [])
  else
    let s' : NotifierState := { s with last_photo_notification := now }
    let r := send_message s' sink .photoFallback (some byteSize) true
    (s', r.1, r.2)

/-- `SlackNotifier.send_temperature_alert`: gated on `temperature_alerts`
and on the shared `last_health_warning` cooldown; when the gates pass it
records `last_health_warning = now` and posts to the top-level channel. -/
def send_temperature_alert (s : NotifierState) (sink : Sink) (now : Int)
    (_temperature : ℚ) : NotifierState × Bool × List SinkCall :=
  if ¬ s.temperature_alerts then (s, false, [])
  else if now - s.last_health_warning < s.health_warning_cooldown then (s, false, [])
  else
    let s' : NotifierState := { s with last_health_warning := now }
    let r := send_message s' sink .temperatureAlert none false
    (s', r.1, r.2)

/-- `SlackNotifier.send_disk_space_alert`: gated on `disk_space_alerts` and
on the same shared `last_health_warning` cooldown field used by
`send_temperature_alert`; when the gates pass it records
`last_health_warning = now` and posts to the top-level channel. -/
def send_disk_space_alert (s : NotifierState) (sink : Sink) (now : Int)
    (_free_space_mb : ℚ) : NotifierState × Bool × List SinkCall :=
  if ¬ s.disk_space_alerts then (s, false, [])
  else if now - s.last_health_warning < s.health_warning_cooldown then (s, false, [])
  else
    let s' : NotifierState := { s with last_health_warning := now }
    let r := send_message s' sink .diskAlert none false
    (s', r.1, r.2)

/-- Outcome of sampling one sensor: the read either raised an exception or
produced an integer value. -/
inductive SensorRead
  | readFault
  | value (v : Int)
deriving DecidableEq

/-- Environment of one `PiCameraController._check_system_health` call: the
sensor reads (each of which may raise) and the two configured thresholds
from `config['system']`. `tempMilli` is the integer read from the thermal
zone file, in millidegrees Celsius; the source compares `tempMilli / 1000`
against `temperature_warning`. `freeBytes` is `shutil.disk_usage(...).free`;
the source compares `freeBytes / (1024 * 1024)` against `low_disk_warning`. -/
structure HealthEnv where
  tempFileExists : Bool
  tempMilli : SensorRead
  temperature_warning : ℚ
  outputDirExists : Bool
  freeBytes : SensorRead
  low_disk_warning : ℚ
deriving DecidableEq

/-- Disk-space half of `PiCameraController._check_system_health` (reached
when the temperature check neither raised nor tripped): a raised read sends
an `Error` notification and returns `False`; a reading below the threshold
sends a disk-space alert and returns `False`; otherwise the check returns
`True`. -/
def check_system_health_disk (env : HealthEnv) (sink : Sink) (now : Int)
    (s : NotifierState) : NotifierState × Bool × List SinkCall :=
  match env.outputDirExists, env.freeBytes with
  | true, .readFault => (s, false, (send_error s sink).2)
  | true, .value b =>
      if (b : ℚ) / (1024 * 1024) < env.low_disk_warning then
        let r := send_disk_space_alert s sink now ((b : ℚ) / (1024 * 1024))
        (r.1, false, r.2.2)
      else (s, true, [])
  | false, _ => (s, true, [])

/-- `PiCameraController._check_system_health`: reads the CPU temperature (if
the thermal-zone file exists) and then the free disk space (if the output
directory exists). Any exception raised while sampling is caught by the
function's `except` clause, which sends an `Error` notification
("System health check failed") and returns `False`. A temperature above the
threshold sends a temperature alert and returns `False` without checking the
disk. -/
def check_system_health (env : HealthEnv) (sink : Sink) (now : Int)
    (s : NotifierState) : NotifierState × Bool × List SinkCall :=
  match env.tempFileExists, env.tempMilli with
  | true, .readFault => (s, false, (send_error s sink).2)
  | true, .value m =>
      if (m : ℚ) / 1000 > env.temperature_warning then
        let r := send_temperature_alert s sink now ((m : ℚ) / 1000)
        (r.1, false, r.2.2)
      else check_system_health_disk env sink now s
  | false, _ => check_system_health_disk env sink now s

/-- State of `PiCameraController`: whether `_setup_camera` succeeded, the
process-lifetime `image_count` and `start_time` set in `__init__`, the
`config['timelapse']` entries the scheduler reads, and the owned notifier. -/
structure ControllerState where
  cameraInit : Bool
  image_count : Nat
  start_time : Option Int
  cfg_enabled : Bool
  cfg_interval : Nat
  cfg_duration : Nat
  notifier : NotifierState
deriving DecidableEq

/-- `PiCameraController.__init__`: `image_count = 0`, `start_time = None`;
the camera flag and the timelapse configuration are parameters of the
process environment. -/
def controller_init (cameraInit : Bool) (cfg_enabled : Bool)
    (cfg_interval cfg_duration : Nat) : ControllerState where
  cameraInit := cameraInit
  image_count := 0
  start_time := none
  cfg_enabled := cfg_enabled
  cfg_interval := cfg_interval
  cfg_duration := cfg_duration
  notifier := notifierInit

/-- Environment of one `PiCameraController.capture_image` call: whether
`camera.capture_file` succeeds or raises, the wall-clock time, the chat
transport, and the outcome of the optional low-resolution re-capture side
path of `_send_photo_notification`. -/
structure CaptureEnv where
  captureOk : Bool
  now : Int
  sink : Sink
  lowResOk : Bool
  lowResByteSize : Nat
deriving DecidableEq

/-- `PiCameraController.capture_image`: returns `False` (after an `Error`
notification, which mutates no notifier state) when the camera is not
initialized or when `capture_file` raises; on a successful capture it
increments `image_count` by exactly one, sends a progress update (which
mutates no notifier state), runs the `_send_photo_notification` side path
when `send_photos` is on (a raise inside that path is caught with only a log
warning), runs retention cleanup on the filesystem (modelled separately by
`cleanup_old_images`), and returns `True`. -/
def capture_image (env : CaptureEnv) (c : ControllerState) :
    ControllerState × Bool :=
  if ¬ c.cameraInit then (c, false)
  else if ¬ env.captureOk then (c, false)
  else
    let c1 : ControllerState := { c with image_count := c.image_count + 1 }
    let n2 :=
      if c1.notifier.send_photos then
        if env.lowResOk then
          (send_photo_notification c1.notifier env.sink env.now c1.image_count
            env.lowResByteSize).1
        else c1.notifier
      else c1.notifier
    ({ c1 with notifier := n2 }, true)

/-- Environment of one iteration of the `run_timelapse` loop. -/
structure IterEnv where
  health : HealthEnv
  sink : Sink
  capture : CaptureEnv
deriving DecidableEq

/-- One iteration of the `while` loop in
`PiCameraController.run_timelapse`: run the health check (a `False` result
only logs and sends a warning, which mutates no notifier state — the loop
continues), then attempt a capture (a `False` result likewise only logs and
sends a warning; the loop proceeds to the next iteration). -/
def timelapse_iteration (e : IterEnv) (c : ControllerState) : ControllerState :=
  let h := check_system_health e.health e.sink e.capture.now c.notifier
  let c1 : ControllerState := { c with notifier := h.1 }
  (capture_image e.capture c1).1

/-- `PiCameraController.run_timelapse`: returns immediately when the
timelapse is disabled; otherwise records `start_time = now` (note that
`image_count` is *not* reset), sends the start notification, runs the
capture loop (one `IterEnv` per iteration the timing admits), and in its
`finally` block sends the stop notification carrying the process-lifetime
`image_count` and the elapsed duration. -/
def run_timelapse (now0 finalNow : Int) (startSink stopSink : Sink)
    (iters : List IterEnv) (c : ControllerState) : ControllerState :=
  if ¬ c.cfg_enabled then c
  else
    let c1 : ControllerState := { c with start_time := some now0 }
    let n1 := (send_start_notification c1.notifier startSink).1
    let c2 : ControllerState := { c1 with notifier := n1 }
    let c3 := iters.foldl (fun acc e => timelapse_iteration e acc) c2
    let _stop := send_stop_notification c3.notifier stopSink c3.image_count
      ((finalNow - now0 : Int) : ℚ)
    c3

/-- `ParsedCommand`: the typed result of `TimelapseBot._parse_command`
(`start` carries interval and duration already converted to seconds);
`_parse_command` returning `None` models `Unrecognized`. -/
inductive ParsedCommand
  | photo
  | statusQuery
  | start (interval : Nat) (duration : Nat)
  | stop
  | help
deriving DecidableEq

/-- Python `str.lower` on the ASCII range (command texts are ASCII). -/
def pyLower (c : Char) : Char :=
  if 'A' ≤ c ∧ c ≤ 'Z' then Char.ofNat (c.toNat + 32) else c

/-- The characters matched by Python's `\s` class and stripped by
`str.strip`: space, tab, newline, carriage return, vertical tab, form feed. -/
def isPySpace (c : Char) : Bool :=
  c = ' ' || c = '\t' || c = '\n' || c = '\r' || c = Char.ofNat 11 || c = Char.ofNat 12

/-- Python `str.strip`: drop leading and trailing whitespace. -/
def pyStrip (l : List Char) : List Char :=
  ((l.dropWhile isPySpace).reverse.dropWhile isPySpace).reverse

/-- Match a literal fragment of a regex pattern at the head of the input,
returning the rest of the input. -/
def matchLit : List Char → List Char → Option (List Char)
  | [], rest => some rest
  | _ :: _, [] => none
  | c :: cs, d :: ds => if d = c then matchLit cs ds else none

/-- Match `\s+` at the head of the input (greedy; every token that follows
`\s+` in the bot's patterns is a non-space, so maximal munch is exact). -/
def matchWs1 : List Char → Option (List Char)
  | [] => none
  | c :: cs => if isPySpace c then some (cs.dropWhile isPySpace) else none

/-- Numeric value of a digit string, as computed by Python's `int`. -/
def natOfDigits (ds : List Char) : Nat :=
  ds.foldl (fun n c => 10 * n + (c.toNat - 48)) 0

/-- Match `(\d+)` at the head of the input (greedy; in the bot's `start`
pattern the group is followed by `s?\s+` or `(s|m|h)?`, neither of which can
consume a digit, so maximal munch is exact). -/
def matchDigits (l : List Char) : Option (Nat × List Char) :=
  match l.takeWhile Char.isDigit with
  | [] => none
  | ds => some (natOfDigits ds, l.dropWhile Char.isDigit)

/-- Match the argument part `(\d+)s?\s+(\d+)(s|m|h)?` of the `start`
pattern. For `s?` the greedy branch (consume the `s`, then require `\s+`)
and the backtracking branch coincide: when the character after the first
digit group is `s` but no whitespace follows it, the empty alternative also
fails because `s` itself is not whitespace. -/
def matchStartArgs (l : List Char) : Option (Nat × Nat × Option Char) := do
  let (n1, r1) ← matchDigits l
  let r2 ←
    match r1 with
    | 's' :: rest => matchWs1 rest
    | _ => matchWs1 r1
  let (n2, r3) ← matchDigits r2
  let unit : Option Char :=
    match r3 with
    | c :: _ => if c = 's' || c = 'm' || c = 'h' then some c else none
    | [] => none
  pure (n1, n2, unit)

/-- Match the full `start` pattern `@bot\s+start\s+(\d+)s?\s+(\d+)(s|m|h)?`
at the head of the input. -/
def matchStartAt (l : List Char) : Option (Nat × Nat × Option Char) := do
  let r1 ← matchLit "@bot".toList l
  let r2 ← matchWs1 r1
  let r3 ← matchLit "start".toList r2
  let r4 ← matchWs1 r3
  matchStartArgs r4

/-- `re.search` scanning: try the anchored matcher at every start position,
left to right. -/
def reSearch (m : List Char → Option α) : List Char → Option α
  | [] => m []
  | l@(_ :: rest) =>
    match m l with
    | some r => some r
    | none => reSearch m rest

/-- Match one of the word-only patterns `@bot\s+word` at the head of the
input. -/
def matchSimpleAt (word : List Char) (l : List Char) : Option Unit := do
  let r1 ← matchLit "@bot".toList l
  let r2 ← matchWs1 r1
  let _ ← matchLit word r2
  pure ()

/-- `re.search` for a word-only pattern `@bot\s+word`. -/
def searchSimple (word : List Char) (l : List Char) : Bool :=
  (reSearch (matchSimpleAt word) l).isSome

/-- Conversion of the `start` command's duration to seconds:
`match.group(3) or "s"`, then `*60` for `m` and `*3600` for `h`. -/
def duration_to_seconds (n : Nat) (unit : Option Char) : Nat :=
  match unit with
  | some c => if c = 'm' then n * 60 else if c = 'h' then n * 3600 else n
  | none => n

/-- `TimelapseBot._parse_command`: lowercase and strip the text, then try the
patterns of `command_patterns` in insertion order (`photo`, `status`,
`start`, `stop`, `help`) with `re.search`; the interval of a `start` command
is `int(match.group(1))` taken directly as seconds, the duration is
converted by its unit. Returns `none` for unrecognized text. -/
def parse_command (text : String) : Option ParsedCommand :=
  let t := pyStrip (text.toList.map pyLower)
  if searchSimple "photo".toList t then some .photo
  else if searchSimple "status".toList t then some .statusQuery
  else
    match reSearch matchStartAt t with
    | some (i, d, u) => some (.start i (duration_to_seconds d u))
    | none =>
      if searchSimple "stop".toList t then some .stop
      else if searchSimple "help".toList t then some .help
      else none

/-- Status attached to a bot reply (mapped to an attachment color). -/
inductive ReplyStatus
  | success
  | errorReply
  | warningReply
  | info
deriving DecidableEq

/-- Body of a bot reply, tagging which dispatcher branch produced it. -/
inductive ReplyText
  | photoCaptured
  | photoFailed
  | statusReport
  | timelapseStarted (interval duration : Nat)
  | stopNotImplemented
  | helpText
deriving DecidableEq

/-- State of `TimelapseBot`: the owned camera controller and the number of
`run_timelapse` threads spawned so far by `start` commands (each
`threading.Thread(target=run_timelapse).start()` adds one live capture
loop). -/
structure BotState where
  controller : ControllerState
  spawnedLoops : Nat
deriving DecidableEq

/-- `TimelapseBot._execute_command`: `photo` performs a single capture;
`status` and `help` only read state; `start` unconditionally overwrites
`config['timelapse']['interval']` and `['duration']` and spawns a new
background `run_timelapse` thread, replying success — there is no check
whether a session is already running; `stop` replies
"Stop command received (not yet implemented)" and changes nothing. -/
def execute_command (env : CaptureEnv) (cmd : ParsedCommand) (b : BotState) :
    BotState × ReplyStatus × ReplyText :=
  match cmd with
  | .photo =>
      let r := capture_image env b.controller
      ({ b with controller := r.1 },
        if r.2 then (.success, .photoCaptured) else (.errorReply, .photoFailed))
  | .statusQuery => (b, .info, .statusReport)
  | .start interval duration =>
      let c' : ControllerState :=
        { b.controller with cfg_interval := interval, cfg_duration := duration }
      ({ controller := c', spawnedLoops := b.spawnedLoops + 1 },
        .success, .timelapseStarted interval duration)
  | .stop => (b, .warningReply, .stopNotImplemented)
  | .help => (b, .info, .helpText)

/-- A stored image file: its name and its modification time. -/
structure StoredImage where
  name : String
  mtime : Int
deriving DecidableEq

/-- Ordering of stored images by modification time (the sort key of
`images.sort(key=lambda x: x.stat().st_mtime)`). -/
def mtimeLE (a b : StoredImage) : Prop :=
  a.mtime ≤ b.mtime

instance : DecidableRel mtimeLE :=
  fun a b => inferInstanceAs (Decidable (a.mtime ≤ b.mtime))

instance : IsTotal StoredImage mtimeLE :=
  ⟨fun a b => Int.le_total a.mtime b.mtime⟩

instance : IsTrans StoredImage mtimeLE :=
  ⟨fun _ _ _ hab hbc => le_trans hab hbc⟩

/-- Python's slice `l[:-k]`: all elements but the last `k` — except that for
`k = 0` the slice `l[:-0]` is `l[:0]`, the empty list. -/
def pySliceDropLast (k : Nat) (l : List α) : List α :=
  if k = 0 then [] else l.take (l.length - k)

/-- `PiCameraController._cleanup_old_images`, returning the list of files it
unlinks: nothing when cleanup is disabled or the image count does not exceed
`config['storage']['max_images']`; otherwise the images are sorted by
modification time ascending (Python's sort is stable; `List.insertionSort`
with `mtimeLE` is likewise stable, and on distinct mtimes every correct sort
agrees) and the slice `images[:-max_images]` is removed. -/
def cleanup_old_images (cleanup_old : Bool) (max_images : Nat)
    (images : List StoredImage) : List StoredImage :=
  if ¬ cleanup_old then []
  else if images.length > max_images then
    pySliceDropLast max_images (List.insertionSort mtimeLE images)
  else []

/-- A transport on which every client call succeeds. -/
def sinkOk : Sink where
  postMessage := .response true
  msgTs := 111
  filesUpload := .response true

/-- A transport on which every client call returns a non-`ok` response. -/
def sinkAllFail : Sink where
  postMessage := .response false
  msgTs := 0
  filesUpload := .response false

/-- A transport on which every client call raises. -/
def sinkRaising : Sink where
  postMessage := .raised
  msgTs := 0
  filesUpload := .raised

/-- A transport on which image upload fails but text posting works. -/
def sinkUploadFails : Sink where
  postMessage := .response true
  msgTs := 222
  filesUpload := .response false

/-- A healthy environment: temperature 45 °C against an 80 °C threshold,
10 GiB free against a 100 MB threshold. -/
def healthEnvOk : HealthEnv where
  tempFileExists := true
  tempMilli := .value 45000
  temperature_warning := 80
  outputDirExists := true
  freeBytes := .value 10737418240
  low_disk_warning := 100

/-- The healthy environment, except that reading the thermal-zone file
raises an exception. -/
def healthEnvTempFault : HealthEnv :=
  { healthEnvOk with tempMilli := .readFault }

/-- A capture environment in which the camera call and the low-resolution
side path both succeed. -/
def envOk : CaptureEnv where
  captureOk := true
  now := 1000
  sink := sinkOk
  lowResOk := true
  lowResByteSize := 4096

/-- The bot right after initialization: camera set up, timelapse enabled
with interval 60 s and duration 300 s, no capture-loop thread spawned. -/
def botInit : BotState where
  controller := controller_init true true 60 300
  spawnedLoops := 0

/-- The bot after one `start 30s 10m` command: one capture loop running. -/
def botRunning : BotState :=
  (execute_command envOk (.start 30 600) botInit).1

/-- One healthy, successful loop iteration. -/
def iterOk : IterEnv where
  health := healthEnvOk
  sink := sinkOk
  capture := { envOk with now := 2100 }

/-- The controller after two successful `photo` captures (so with
`image_count = 2`) before any timelapse session has started. -/
def cAfterTwoPhotos : ControllerState :=
  (capture_image { envOk with now := 200 }
    (capture_image { envOk with now := 100 } (controller_init true true 60 300)).1).1

/-- Four stored images with strictly increasing modification times. -/
def imgs4 : List StoredImage :=
  [⟨"a", 1⟩, ⟨"b", 2⟩, ⟨"c", 3⟩, ⟨"d", 4⟩]

/-- One loop iteration whose temperature read raises but whose capture
succeeds. -/
def iterFault : IterEnv where
  health := healthEnvTempFault
  sink := sinkOk
  capture := { envOk with now := 2100 }

/-- Result of the image-upload path when the upload does not return an `ok`
response: the fallback text post is attempted, its message carries the byte
size of the image payload, the result is the `ok`-ness of the text post, and
no exception escapes (raised client calls are mapped to a `false` result). -/
theorem upload_image_fallback_result (s : NotifierState) (sink : Sink)
    (bs : Nat) (inT : Bool) (hen : s.enabled = true)
    (hup : sink.filesUpload ≠ ClientOutcome.response true) :
    upload_image s sink bs inT =
      (decide (sink.postMessage = ClientOutcome.response true),
        [SinkCall.fileUpload bs (inT && s.thread_ts.isSome),
         SinkCall.chatPost MsgKind.photoFallback (some bs) (inT && s.thread_ts.isSome)]) := by
  cases hsu : sink.filesUpload with
  | raised =>
      cases hpm : sink.postMessage with
      | raised =>
          simp [upload_image, upload_image_fallback, send_message_text, hen, hsu, hpm]
      | response ok =>
          cases ok <;>
            simp [upload_image, upload_image_fallback, send_message_text, hen, hsu, hpm]
  | response ok =>
      cases ok with
      | true => exact absurd hsu hup
      | false =>
          cases hpm : sink.postMessage with
          | raised =>
              simp [upload_image, upload_image_fallback, send_message_text, hen, hsu, hpm]
          | response ok' =>
              cases ok' <;>
                simp [upload_image, upload_image_fallback, send_message_text, hen, hsu, hpm]

/-- C10: for every image count, including 0, the average-interval divisor of
`send_stop_notification` is `max(image_count, 1)`, which is positive and
nonzero as a rational, so building the stop notification never divides by
zero; for a session with zero captured images the reported average is
`duration / 1 = duration`. -/
theorem C10_stop_divisor_never_zero (n : Nat) (d : ℚ) :
    0 < stop_notification_divisor n ∧
    (stop_notification_divisor n : ℚ) ≠ 0 ∧
    stop_notification_average_interval n d =
      d / (stop_notification_divisor n : ℚ) ∧
    stop_notification_average_interval 0 d = d := by
  refine ⟨?_, ?_, rfl, ?_⟩
  · have h : (1 : ℕ) ≤ max n 1 := le_max_right n 1
    simp only [stop_notification_divisor]
    omega
  · have h : stop_notification_divisor n ≠ 0 := by
      have h1 : (1 : ℕ) ≤ max n 1 := le_max_right n 1
      simp only [stop_notification_divisor]
      omega
    exact_mod_cast Nat.cast_ne_zero.mpr h
  · simp [stop_notification_average_interval, stop_notification_divisor]

/-- C1 counterexample: starting from a state with one session already
running (`botRunning`), a further `start` command does not fail with any
already-running error — it replies success and spawns a second capture
loop, so two loops are live. -/
theorem C1_counterexample :
    (execute_command envOk (.start 30 600) botRunning).1.spawnedLoops = 2 ∧
    (execute_command envOk (.start 30 600) botRunning).2.1 = ReplyStatus.success := by
  constructor <;> rfl

/-- C1 amended: the command dispatcher performs no already-running check.
Every `start` command, from any state, replies success and spawns one more
capture-loop thread; two consecutive `start` commands leave two more loops
live than before, with both replies successful. -/
theorem C1_start_never_rejected (b : BotState) (env env' : CaptureEnv)
    (i1 d1 i2 d2 : Nat) :
    (execute_command env (.start i1 d1) b).1.spawnedLoops = b.spawnedLoops + 1 ∧
    (execute_command env (.start i1 d1) b).2.1 = ReplyStatus.success ∧
    (execute_command env' (.start i2 d2)
      (execute_command env (.start i1 d1) b).1).1.spawnedLoops = b.spawnedLoops + 2 ∧
    (execute_command env' (.start i2 d2)
      (execute_command env (.start i1 d1) b).1).2.1 = ReplyStatus.success := by
  refine ⟨rfl, rfl, rfl, rfl⟩

/-- C2: the `stop` chat command is not wired to the running loop. For every
bot state — in particular `botRunning`, where a session is live — executing
`stop` leaves the entire state unchanged (no status is set to any stopping
value, no sleep is interrupted) and replies with the
"Stop command received (not yet implemented)" warning. -/
theorem C2_stop_not_implemented (env : CaptureEnv) (b : BotState) :
    execute_command env .stop b = (b, ReplyStatus.warningReply, ReplyText.stopNotImplemented) := by
  rfl

/-- C8 counterexample: the interval group of the `start` pattern is
`(\d+)s?` — a minute or hour unit on the interval is not part of the
grammar, so `"@bot start 5m 10m"` does not parse as
`Start{interval=300s, duration=600s}`; it parses as no command at all. -/
theorem C8_counterexample :
    parse_command "@bot start 5m 10m" ≠ some (ParsedCommand.start 300 600) ∧
    parse_command "@bot start 5m 10m" = none := by
  constructor
  · decide
  · decide

/-- C8 amended: the grammar accepts the interval only as digits optionally
followed by a literal `s`, always read as seconds (interval units `m`/`h`
are not recognized); the duration accepts units `s`, `m`, `h` with default
seconds. The spec's round-trip examples hold: `"@bot start 30s 10m"` yields
`Start{30, 600}` and `"@bot start 60s 1h"` yields `Start{60, 3600}`; a bare
interval and a bare duration are read as seconds. -/
theorem C8_start_grammar :
    parse_command "@bot start 30s 10m" = some (ParsedCommand.start 30 600) ∧
    parse_command "@bot start 60s 1h" = some (ParsedCommand.start 60 3600) ∧
    parse_command "@bot start 45 2h" = some (ParsedCommand.start 45 7200) ∧
    parse_command "@bot start 20s 90s" = some (ParsedCommand.start 20 90) ∧
    parse_command "@bot start 15s 300" = some (ParsedCommand.start 15 300) ∧
    parse_command "@bot start 5m 10m" = none := by
  refine ⟨?_, ?_, ?_, ?_, ?_, ?_⟩ <;> decide

/-- C4 counterexample: with an otherwise healthy system, an exception while
reading the temperature sensor is not swallowed: `_check_system_health`
sends an Error notification ("System health check failed") and returns
`False` (unhealthy). -/
theorem C4_counterexample :
    check_system_health healthEnvTempFault sinkOk 1000 notifierInit =
      (notifierInit, false, [SinkCall.chatPost MsgKind.errorMsg none false]) := by
  rfl

/-- C4 amended: an exception while sampling a sensor is caught by the health
check's `except` handler, which sends an Error notification and makes the
check return `False` (unhealthy); the failure is nonetheless advisory — the
capture loop's iteration still attempts its capture, which succeeds and
increments the image count. -/
theorem C4_sensor_fault_is_error_not_healthy
    (env : HealthEnv) (sink : Sink) (now : Int) (s : NotifierState)
    (e : IterEnv) (c : ControllerState)
    (hex : env.tempFileExists = true) (hfault : env.tempMilli = SensorRead.readFault)
    (hex' : e.health.tempFileExists = true)
    (hfault' : e.health.tempMilli = SensorRead.readFault)
    (hcam : c.cameraInit = true) (hcap : e.capture.captureOk = true) :
    check_system_health env sink now s = (s, false, (send_error s sink).2) ∧
    (timelapse_iteration e c).image_count = c.image_count + 1 := by
  constructor
  · simp [check_system_health, hex, hfault]
  · simp [timelapse_iteration, capture_image, check_system_health, hex', hfault',
      hcam, hcap]

/-- C4 witness: the amended statement at a concrete faulty environment and a
concrete controller state. -/
theorem C4_sensor_fault_witness :
    check_system_health healthEnvTempFault sinkRaising 500 notifierInit =
      (notifierInit, false, (send_error notifierInit sinkRaising).2) ∧
    (timelapse_iteration iterFault cAfterTwoPhotos).image_count =
      cAfterTwoPhotos.image_count + 1 :=
  C4_sensor_fault_is_error_not_healthy healthEnvTempFault sinkRaising 500 notifierInit
    iterFault cAfterTwoPhotos rfl rfl rfl rfl (by decide) rfl

/-- C5 counterexample: at `t = 1000` a temperature alert passes the cooldown
gate but its delivery raises, so nothing is ever *sent* (the call returns
`false`); yet at `t = 1050` a second temperature alert is suppressed — state
unchanged and no client call — because the cooldown timestamp was updated by
the mere *attempt*. Under the claim, with zero sent notifications of this
kind, the second emission could not be suppressed. -/
theorem C5_counterexample :
    (send_temperature_alert notifierInit sinkRaising 1000 90).2.1 = false ∧
    send_temperature_alert (send_temperature_alert notifierInit sinkRaising 1000 90).1
        sinkOk 1050 90 =
      ((send_temperature_alert notifierInit sinkRaising 1000 90).1, false, []) := by
  exact ⟨by decide, by decide⟩

/-- C5 amended: the cooldown gate measures elapsed time since the last
*send decision* (an attempt that passed the gates, whether or not delivery
succeeded), not since the last successfully sent message; the timestamp is
updated exactly on a send decision and never on suppression. Shown for the
temperature alert (whose clock, `last_health_warning`, is shared with the
disk alert) and for the photo notification (whose clock,
`last_photo_notification`, is its own, with a 120 s interval). -/
theorem C5_cooldown_counts_attempts
    (s : NotifierState) (sink : Sink) (now : Int) (t : ℚ) (count bs : Nat)
    (htemp : s.temperature_alerts = true)
    (hphoto : s.send_photos = true)
    (hmod : count % s.photo_interval = 0) :
    ((now - s.last_health_warning < s.health_warning_cooldown →
        send_temperature_alert s sink now t = (s, false, [])) ∧
      (s.health_warning_cooldown ≤ now - s.last_health_warning →
        (send_temperature_alert s sink now t).1 =
          { s with last_health_warning := now })) ∧
    ((now - s.last_photo_notification < 120 →
        send_photo_notification s sink now count bs = (s, false, [])) ∧
      (120 ≤ now - s.last_photo_notification →
        (send_photo_notification s sink now count bs).1 =
          { s with last_photo_notification := now })) := by
  refine ⟨⟨?_, ?_⟩, ?_, ?_⟩
  · intro h
    simp [send_temperature_alert, htemp, h]
  · intro h
    simp [send_temperature_alert, htemp, Int.not_lt.mpr h]
  · intro h
    simp [send_photo_notification, hphoto, hmod, h]
  · intro h
    simp [send_photo_notification, hphoto, hmod, Int.not_lt.mpr h]

/-- C5 witness: at `t = 50` (inside the 300 s cooldown measured from the
initial timestamp 0) a temperature alert is suppressed with no state change;
at `t = 400` (outside it) the attempt updates the shared timestamp. -/
theorem C5_cooldown_witness :
    send_temperature_alert notifierInit sinkOk 50 90 = (notifierInit, false, []) ∧
    (send_temperature_alert notifierInit sinkOk 400 90).1 =
      { notifierInit with last_health_warning := 400 } := by
  have h1 := C5_cooldown_counts_attempts notifierInit sinkOk 50 (90 : ℚ) 10 64 rfl rfl (by decide)
  have h2 := C5_cooldown_counts_attempts notifierInit sinkOk 400 (90 : ℚ) 10 64 rfl rfl (by decide)
  exact ⟨h1.1.1 (by decide), h2.1.2 (by decide)⟩

/-- C6 counterexample: at `t = 1000` a temperature alert is delivered; at
`t = 1010` the first-ever disk alert — trivially outside any DiskAlert-kind
cooldown, since none was ever sent — is suppressed with no client call,
because both alert kinds share the single `last_health_warning` timestamp. -/
theorem C6_counterexample :
    (send_temperature_alert notifierInit sinkOk 1000 90).2.1 = true ∧
    send_disk_space_alert (send_temperature_alert notifierInit sinkOk 1000 90).1
        sinkOk 1010 50 =
      ((send_temperature_alert notifierInit sinkOk 1000 90).1, false, []) := by
  exact ⟨by decide, by decide⟩

/-- C6 amended: `send_temperature_alert` and `send_disk_space_alert` share
the one `last_health_warning` timestamp and 300 s cooldown, so an attempted
temperature alert suppresses any disk alert within the shared window (and
symmetrically); only the Photo cooldown state is per-kind — the temperature
alert leaves `last_photo_notification` unchanged. -/
theorem C6_shared_health_cooldown
    (s : NotifierState) (sink sink' : Sink) (now now' : Int) (t mb : ℚ)
    (htemp : s.temperature_alerts = true)
    (hdisk : s.disk_space_alerts = true)
    (hgate : s.health_warning_cooldown ≤ now - s.last_health_warning)
    (hwin : now' - now < s.health_warning_cooldown) :
    send_disk_space_alert (send_temperature_alert s sink now t).1 sink' now' mb =
      ((send_temperature_alert s sink now t).1, false, []) ∧
    (send_temperature_alert s sink now t).1.last_photo_notification =
      s.last_photo_notification := by
  have hs1 : (send_temperature_alert s sink now t).1 =
      { s with last_health_warning := now } := by
    simp [send_temperature_alert, htemp, Int.not_lt.mpr hgate]
  rw [hs1]
  constructor
  · simp [send_disk_space_alert, hdisk, hwin]
  · rfl

/-- C6 witness: the amended statement at a concrete pair of alerts 100 s
apart. -/
theorem C6_shared_health_cooldown_witness :
    send_disk_space_alert (send_temperature_alert notifierInit sinkOk 1000 90).1
        sinkOk 1100 50 =
      ((send_temperature_alert notifierInit sinkOk 1000 90).1, false, []) ∧
    (send_temperature_alert notifierInit sinkOk 1000 90).1.last_photo_notification =
      notifierInit.last_photo_notification :=
  C6_shared_health_cooldown notifierInit sinkOk sinkOk 1000 1100 90 50 rfl rfl
    (by decide) (by decide)

/-- C7 counterexample: a photo event passes every gate, the image upload
returns a non-`ok` response, and the fallback text post also returns a
non-`ok` response — the emit returns `false`, not a delivered=true result. -/
theorem C7_counterexample :
    (send_photo_notification notifierInit sinkAllFail 1000 5 12345).2.1 = false := by
  decide

/-- C7 amended: when the image upload fails (raised exception or non-`ok`
response), the fallback text path is attempted and never raises (raised
client calls are absorbed into a `false` result), the fallback message
carries the byte size of the image payload, and the emit returns
delivered=true exactly when the fallback text post itself returns `ok`. -/
theorem C7_upload_fallback
    (s : NotifierState) (sink : Sink) (now : Int) (count bs : Nat)
    (hp : s.send_photos = true) (hmod : count % s.photo_interval = 0)
    (hcool : 120 ≤ now - s.last_photo_notification)
    (hen : s.enabled = true)
    (hup : sink.filesUpload ≠ ClientOutcome.response true) :
    ((send_photo_notification s sink now count bs).2.1 = true ↔
      sink.postMessage = ClientOutcome.response true) ∧
    SinkCall.chatPost MsgKind.photoFallback (some bs) s.thread_ts.isSome ∈
      (send_photo_notification s sink now count bs).2.2 := by
  have hup' := upload_image_fallback_result
    { s with last_photo_notification := now } sink bs true hen hup
  simp only [hen, hp, Bool.true_and] at hup'
  constructor
  · simp [send_photo_notification, hp, hmod, Int.not_lt.mpr hcool, send_message,
      hen, hup']
  · simp [send_photo_notification, hp, hmod, Int.not_lt.mpr hcool, send_message,
      hen, hup']

/-- C7 witness: with the upload failing and the text post working, the photo
emit delivers true and its fallback message carries the payload's byte
size. -/
theorem C7_upload_fallback_witness :
    (send_photo_notification notifierInit sinkUploadFails 1000 5 777).2.1 = true ∧
    SinkCall.chatPost MsgKind.photoFallback (some 777) notifierInit.thread_ts.isSome ∈
      (send_photo_notification notifierInit sinkUploadFails 1000 5 777).2.2 := by
  have h := C7_upload_fallback notifierInit sinkUploadFails 1000 5 777 rfl (by decide)
    (by decide) rfl (by decide)
  exact ⟨h.1.mpr rfl, h.2⟩

/-- A capture attempt never changes whether the camera is initialized. -/
theorem capture_image_cameraInit (env : CaptureEnv) (c : ControllerState) :
    (capture_image env c).1.cameraInit = c.cameraInit := by
  unfold capture_image
  split_ifs <;> rfl

/-- A capture attempt increments `image_count` by one exactly when the
camera is initialized and `capture_file` succeeds, and otherwise leaves it
unchanged. -/
theorem capture_image_image_count (env : CaptureEnv) (c : ControllerState) :
    (capture_image env c).1.image_count =
      c.image_count + (if c.cameraInit && env.captureOk then 1 else 0) := by
  unfold capture_image
  by_cases h1 : c.cameraInit = true
  · by_cases h2 : env.captureOk = true
    · simp [h1, h2]
    · simp [h1, h2]
  · simp [h1]

/-- A loop iteration never changes whether the camera is initialized. -/
theorem timelapse_iteration_cameraInit (e : IterEnv) (c : ControllerState) :
    (timelapse_iteration e c).cameraInit = c.cameraInit := by
  simp [timelapse_iteration, capture_image_cameraInit]

/-- A loop iteration adds one to `image_count` exactly when its capture
succeeds (health-check outcomes and notification outcomes do not touch the
count). -/
theorem timelapse_iteration_image_count (e : IterEnv) (c : ControllerState) :
    (timelapse_iteration e c).image_count =
      c.image_count + (if c.cameraInit && e.capture.captureOk then 1 else 0) := by
  simp [timelapse_iteration, capture_image_image_count]

/-- Folding the loop iterations adds exactly the number of successful
captures to `image_count` (zero when the camera was never initialized). -/
theorem foldl_iterations_image_count (iters : List IterEnv) (c : ControllerState) :
    (iters.foldl (fun acc e => timelapse_iteration e acc) c).image_count =
      c.image_count +
        (if c.cameraInit then iters.countP (fun e => e.capture.captureOk) else 0) := by
  induction iters generalizing c with
  | nil => simp
  | cons e rest ih =>
      simp only [List.foldl_cons]
      rw [ih, timelapse_iteration_cameraInit, timelapse_iteration_image_count,
        List.countP_cons]
      by_cases h1 : c.cameraInit = true
      · by_cases h2 : e.capture.captureOk = true
        · simp [h1, h2]
          omega
        · simp [h1, h2]
      · simp [h1]

/-- C3 counterexample: two successful `photo` commands before any session
leave `image_count = 2`; a session of one iteration with one successful
capture then ends with `image_count = 3`, although the session's number of
successful `captureToFile` calls is 1 — and at session start the counter
held 2, not 0, because `run_timelapse` never resets it. -/
theorem C3_counterexample :
    cAfterTwoPhotos.image_count = 2 ∧
    (run_timelapse 2000 2300 sinkOk sinkOk [iterOk] cAfterTwoPhotos).image_count = 3 := by
  exact ⟨by decide, by decide⟩

/-- C3 amended: `image_count` is a process-lifetime counter set to 0 only in
`PiCameraController.__init__` and never reset at session start; each
successful `captureToFile` call increments it by exactly one and failed
attempts never do, so after a session it equals its value at session start
plus the session's number of successful captures. -/
theorem C3_image_count_process_lifetime
    (c : ControllerState) (now0 finalNow : Int) (s1 s2 : Sink)
    (iters : List IterEnv)
    (hen : c.cfg_enabled = true) (hcam : c.cameraInit = true) :
    (run_timelapse now0 finalNow s1 s2 iters c).image_count =
      c.image_count + iters.countP (fun e => e.capture.captureOk) := by
  unfold run_timelapse
  simp only [hen, Bool.not_true, Bool.false_eq_true, if_false, ite_false,
    not_true_eq_false]
  rw [foldl_iterations_image_count]
  simp [hcam]

/-- C3 witness: the amended statement for a freshly initialized controller
running a one-iteration session. -/
theorem C3_image_count_witness :
    (run_timelapse 2000 2300 sinkOk sinkOk [iterOk] botInit.controller).image_count =
      botInit.controller.image_count +
        [iterOk].countP (fun e => e.capture.captureOk) :=
  C3_image_count_process_lifetime botInit.controller 2000 2300 sinkOk sinkOk
    [iterOk] rfl rfl

/-- C9 counterexample: with `maxStoredImages = 0` and one stored image (so
the count exceeds the limit by one), the Python slice `images[:-0]` is
empty, so cleanup deletes nothing instead of the claimed
`count - limit = 1` oldest file. -/
theorem C9_counterexample :
    cleanup_old_images true 0 ([⟨"a", 1⟩] : List StoredImage) = [] ∧
    (cleanup_old_images true 0 ([⟨"a", 1⟩] : List StoredImage)).length ≠
      ([⟨"a", 1⟩] : List StoredImage).length - 0 := by
  exact ⟨by decide, by decide⟩

/-- C9 amended: for a positive retention limit, enabled cleanup removes
exactly the `count - limit` files that come first in the mtime-sorted order
and no others: the removed and kept parts together are a permutation of the
stored images, the kept part has exactly `limit` elements, every removed
file's mtime is at most every kept file's mtime, and with pairwise-distinct
mtimes every removed file is strictly older than every kept file. (With
`limit = 0` the source's `images[:-0]` slice is empty and nothing is
removed.) -/
theorem C9_cleanup_keeps_newest
    (images : List StoredImage) (maxI : Nat)
    (h1 : 1 ≤ maxI) (h2 : maxI < images.length) :
    cleanup_old_images true maxI images =
      (List.insertionSort mtimeLE images).take (images.length - maxI) ∧
    (cleanup_old_images true maxI images).length = images.length - maxI ∧
    ((List.insertionSort mtimeLE images).take (images.length - maxI) ++
      (List.insertionSort mtimeLE images).drop (images.length - maxI)).Perm images ∧
    ((List.insertionSort mtimeLE images).drop (images.length - maxI)).length = maxI ∧
    (∀ a ∈ (List.insertionSort mtimeLE images).take (images.length - maxI),
      ∀ b ∈ (List.insertionSort mtimeLE images).drop (images.length - maxI),
        a.mtime ≤ b.mtime) ∧
    (images.Pairwise (fun x y => x.mtime ≠ y.mtime) →
      ∀ a ∈ (List.insertionSort mtimeLE images).take (images.length - maxI),
        ∀ b ∈ (List.insertionSort mtimeLE images).drop (images.length - maxI),
          a.mtime < b.mtime) := by
  have hperm : (List.insertionSort mtimeLE images).Perm images :=
    List.perm_insertionSort mtimeLE images
  have hlen : (List.insertionSort mtimeLE images).length = images.length :=
    hperm.length_eq
  have hsorted : (List.insertionSort mtimeLE images).Sorted mtimeLE :=
    List.sorted_insertionSort mtimeLE images
  have hmax0 : ¬ maxI = 0 := by omega
  refine ⟨?_, ?_, ?_, ?_, ?_, ?_⟩
  · simp [cleanup_old_images, pySliceDropLast, h2, hmax0, hlen]
  · simp [cleanup_old_images, pySliceDropLast, h2, hmax0, hlen]
  · rw [List.take_append_drop]
    exact hperm
  · rw [List.length_drop, hlen]
    omega
  · have hp : (List.insertionSort mtimeLE images).Pairwise mtimeLE := hsorted
    rw [← List.take_append_drop (images.length - maxI)
      (List.insertionSort mtimeLE images)] at hp
    exact fun a ha b hb => (List.pairwise_append.mp hp).2.2 a ha b hb
  · intro hne
    have hne' : (List.insertionSort mtimeLE images).Pairwise
        (fun x y => x.mtime ≠ y.mtime) :=
      (hperm.pairwise_iff fun h => Ne.symm h).mpr hne
    have hp : (List.insertionSort mtimeLE images).Pairwise mtimeLE := hsorted
    rw [← List.take_append_drop (images.length - maxI)
      (List.insertionSort mtimeLE images)] at hp hne'
    intro a ha b hb
    exact lt_of_le_of_ne ((List.pairwise_append.mp hp).2.2 a ha b hb)
      ((List.pairwise_append.mp hne').2.2 a ha b hb)

/-- C9 witness: the spec's scenario — retention limit 3, four images with
strictly increasing mtimes — removes exactly the single oldest file. -/
theorem C9_cleanup_witness :
    cleanup_old_images true 3 imgs4 = [⟨"a", 1⟩] := by
  have h := C9_cleanup_keeps_newest imgs4 3 (by decide) (by decide)
  exact h.1.trans (by decide)

end RemoteTimelapse
